import Mathlib

/-!
Verification development for the NEON tree-species dataset adapter
(`torchgeo/datasets/neonspecies.py`, class `NEONTreeSpecies`).

The Python adapter is shallowly embedded: the filesystem and the external
readers (rasterio, geopandas) are modelled as explicit data (`FS`), the
adapter's instance attributes become a `DatasetState` record, and each
method becomes a Lean function.  Python partiality (IndexError, KeyError,
AttributeError, AssertionError, RuntimeError, ImportError) is modelled with
`Except PyErr`.  Side effects of `_verify` (network download, archive
extraction) are modelled both as an explicit action trace and as a
filesystem transformation.
-/

/-- Runtime errors the adapter can raise, mirroring the Python exception
classes that the relevant statements can throw. -/
inductive PyErr where
  | indexError
  | keyError
  | attributeError
  | assertionError
  | importError
  | runtimeError (msg : String)
deriving DecidableEq, Repr

/-- One step of Python `str.replace`: replace every non-overlapping
occurrence of `pat` in `s` by `rep`, scanning left to right.  `fuel`
bounds the recursion; one unit is spent per emitted chunk, so
`s.length` units always suffice.  (Python's special case of an empty
pattern is not modelled; the adapter only replaces `"RGB"`.) -/
def pyReplaceAux : Nat → List Char → List Char → List Char → List Char
  | 0, s, _, _ => s
  | _ + 1, [], _, _ => []
  | fuel + 1, c :: rest, pat, rep =>
    if !pat.isEmpty && pat.isPrefixOf (c :: rest) then
      rep ++ pyReplaceAux fuel (List.drop pat.length (c :: rest)) pat rep
    else
      c :: pyReplaceAux fuel rest pat rep

/-- Python `s.replace(pat, rep)` on strings. -/
def pyStrReplace (s pat rep : String) : String :=
  ⟨pyReplaceAux s.data.length s.data pat.data rep.data⟩

/-- Python list indexing `l[i]`: non-negative indices are direct,
negative indices wrap from the end, anything else raises `IndexError`. -/
def pyListGet {α : Type} (l : List α) (i : Int) : Except PyErr α :=
  let n : Int := l.length
  let j : Int := if i < 0 then i + n else i
  if 0 ≤ j ∧ j < n then
    match l.get? j.toNat with
    | some a => Except.ok a
    | none => Except.error PyErr.indexError
  else Except.error PyErr.indexError

/-- pandas `Series.__getitem__` with the default `RangeIndex`: the integer
argument is a label, valid exactly when `0 ≤ i < len`; any other integer
raises `KeyError` (no negative wrap-around). -/
def pdSeriesGet {α : Type} (rows : List α) (i : Int) : Except PyErr α :=
  if 0 ≤ i ∧ i < (rows.length : Int) then
    match rows.get? i.toNat with
    | some a => Except.ok a
    | none => Except.error PyErr.keyError
  else Except.error PyErr.keyError

/-- A raster tensor, modelled by its shape and dtype (the pixel values play
no role in any property considered here). -/
structure Tensor where
  shape : List Nat
  dtype : String
deriving DecidableEq, Repr

/-- `Tensor.to(torch.uint8)`. -/
def toUint8 (t : Tensor) : Tensor :=
  { t with dtype := "uint8" }

/-- One row of the label table read from `label.shp` (a GeoDataFrame row);
only the `label` column is relevant to the adapter's logic. -/
structure LabelRow where
  label : String
deriving DecidableEq, Repr

/-- `df.iloc[0]` applied to the adapter's `self.metadata` attribute after
`_load`: positional access to the first row.  On `None` (the test split)
Python raises `AttributeError` (`None` has no attribute `iloc`), and on an
empty frame `IndexError`. -/
def ilocZero (table : Option (List LabelRow)) : Except PyErr LabelRow :=
  match table with
  | none => Except.error PyErr.attributeError
  | some [] => Except.error PyErr.indexError
  | some (r :: _) => Except.ok r

/-- The external world as the adapter observes it: existing files and
directories, the raster reader (`rasterio`), the shapefile reader
(`geopandas.read_file`), archive contents (for `extract_archive`), and
whether `geopandas` is importable. -/
structure FS where
  files : List String
  dirs : List String
  rasterOf : String → Tensor
  shpOf : String → List LabelRow
  archiveFilesOf : String → List String
  archiveDirsOf : String → List String
  gpdOk : Bool

/-- `os.path.exists`. -/
def FS.existsPath (fs : FS) (p : String) : Bool :=
  fs.files.contains p || fs.dirs.contains p

/-- `glob.glob(os.path.join(dir, "*.tif"))`: the regular files directly
inside `dir` whose name ends in `.tif` (and, as with Python's `glob`, whose
name is not hidden, i.e. does not start with a dot). -/
def globTifs (fs : FS) (dir : String) : List String :=
  fs.files.filter (fun p =>
    let pre := (dir ++ "/").data
    pre.isPrefixOf p.data &&
      (let name := p.data.drop pre.length
       !(name.contains '/') && !(name.take 1 == ['.']) &&
         (".tif".data.isSuffixOf name)))

/-- Effect of `extract_archive(src, dst)` on the filesystem: the archive's
entries appear under `dst`, and `dst` itself exists afterwards. -/
def FS.afterExtract (fs : FS) (src dst : String) : FS :=
  { fs with
    files := fs.files ++ (fs.archiveFilesOf src).map (fun rel => dst ++ "/" ++ rel)
    dirs := fs.dirs ++ dst :: (fs.archiveDirsOf src).map (fun rel => dst ++ "/" ++ rel) }

/-- Effect of `download_url(url, root, filename, md5)` on the filesystem:
the archive file appears at `root/filename`. -/
def FS.afterDownload (fs : FS) (root filename : String) : FS :=
  { fs with files := fs.files ++ [root ++ "/" ++ filename] }

/-- The class-level `classes` dict: species code → scientific name,
in the source's insertion order (33 entries). -/
def classesTable : List (String × String) :=
  [("ACPE", "Acer pensylvanicum L."),
   ("ACRU", "Acer rubrum L."),
   ("ACSA3", "Acer saccharum Marshall"),
   ("AMLA", "Amelanchier laevis Wiegand"),
   ("BETUL", "Betula sp."),
   ("CAGL8", "Carya glabra (Mill.) Sweet"),
   ("CATO6", "Carya tomentosa (Lam.) Nutt."),
   ("FAGR", "Fagus grandifolia Ehrh."),
   ("GOLA", "Gordonia lasianthus (L.) Ellis"),
   ("LITU", "Liriodendron tulipifera L."),
   ("LYLU3", "Lyonia lucida (Lam.) K. Koch"),
   ("MAGNO", "Magnolia sp."),
   ("NYBI", "Nyssa biflora Walter"),
   ("NYSY", "Nyssa sylvatica Marshall"),
   ("OXYDE", "Oxydendrum sp."),
   ("PEPA37", "Persea palustris (Raf.) Sarg."),
   ("PIEL", "Pinus elliottii Engelm."),
   ("PIPA2", "Pinus palustris Mill."),
   ("PINUS", "Pinus sp."),
   ("PITA", "Pinus taeda L."),
   ("PRSE2", "Prunus serotina Ehrh."),
   ("QUAL", "Quercus alba L."),
   ("QUCO2", "Quercus coccinea"),
   ("QUGE2", "Quercus geminata Small"),
   ("QUHE2", "Quercus hemisphaerica W. Bartram ex Willd."),
   ("QULA2", "Quercus laevis Walter"),
   ("QULA3", "Quercus laurifolia Michx."),
   ("QUMO4", "Quercus montana Willd."),
   ("QUNI", "Quercus nigra L."),
   ("QURU", "Quercus rubra L."),
   ("QUERC", "Quercus sp."),
   ("ROPS", "Robinia pseudoacacia L."),
   ("TSCA", "Tsuga canadensis (L.) Carriere")]

/-- The species codes in dict-iteration (= insertion) order. -/
def classCodes : List String :=
  classesTable.map Prod.fst

/-- `self.class2idx = {c: i for i, c in enumerate(self.classes)}`:
code → position in the class table. -/
def class2idx (c : String) : Option Nat :=
  classCodes.findIdx? (fun x => x == c)

/-- `self.idx2class = {i: c for i, c in enumerate(self.classes)}`. -/
def idx2class (i : Nat) : Option String :=
  classCodes.get? i

/-- `self.num_classes = len(self.classes)`. -/
def num_classes : Nat :=
  classCodes.length

/-- The class-level per-split `metadata` dict, `url` field. -/
def splitUrl (split : String) : String :=
  if split = "train" then
    "https://www.dropbox.com/sh/7hvacwqevxjxaa3/AAB9I-7NME-A7U2MBVyy_G3pa?dl=1"
  else
    "https://www.dropbox.com/sh/iex5iy1czal5vlp/AAC174ERqPNhNyVWCrTz3wp8a?dl=1"

/-- The class-level per-split `metadata` dict, `md5` field (`None` for both
splits). -/
def splitMd5 (_split : String) : Option String :=
  none

/-- The class-level per-split `metadata` dict, `filename` field. -/
def splitFilename (split : String) : String :=
  if split = "train" then "train.zip" else "test.zip"

/-- The class-level `directories` dict.  In the source it is
`{"train": ["train"], "test": ["test"]}`; it is only ever looked up at a
valid split. -/
def splitDirectories (split : String) : List String :=
  [split]

/-- A visible side effect of `_verify`: a network download or an archive
extraction. -/
inductive VerifyAction where
  | download (url root filename : String) (md5 : Option String)
  | extract (src dst : String)
deriving DecidableEq, Repr

/-- The dict returned by `__getitem__`: the three rasters, the metadata
row, and (training split only) the label value from the label table's
`label` column. -/
structure Sample where
  image : Tensor
  hsi : Tensor
  chm : Tensor
  metadata : LabelRow
  label : Option String
deriving DecidableEq, Repr

/-- The message of the `RuntimeError` raised by `_verify` when the dataset
is absent and `download=False`. -/
def datasetNotFoundMsg : String :=
  "Dataset not found in `root` directory and `download=False`, " ++
  "either specify a different `root` directory or use `download=True` " ++
  "to automaticaly download the dataset."

/-- The adapter's per-instance attributes after `__init__` finished.
`class2idx`, `idx2class` and `num_classes` are the same for every instance
and live as top-level definitions above.  `labels` and `metadataT` are the
second and third results of `_load` (`self.labels` and `self.metadata`;
the latter shadows the class-level `metadata` dict from `__init__`
onwards). -/
structure DatasetState where
  root : String
  split : String
  transforms : Option (Sample → Sample)
  download : Bool
  checksum : Bool
  data_RGB : List String
  data_CHM : List String
  data_HSI : List String
  labels : Option (List LabelRow)
  metadataT : Option (List LabelRow)

/-- `NEONTreeSpecies._verify`, returning the Python result (`none` for a
normal return), the filesystem after its side effects, and the trace of
download/extract actions it performed.  `md5` for both splits is `None`,
so `md5 if self.checksum else None` is `None` either way. -/
def verify (fs : FS) (root split : String) (download checksum : Bool) :
    Option PyErr × FS × List VerifyAction :=
  let filename := splitFilename split
  let url := splitUrl split
  let md5 := splitMd5 split
  let dirList := splitDirectories split
  if dirList.all (fun d => fs.existsPath (root ++ "/" ++ d)) then
    (none, fs, [])
  else
    let filepath := root ++ "/" ++ filename
    if fs.existsPath filepath then
      (none, fs.afterExtract filepath (root ++ "/" ++ split),
       [VerifyAction.extract filepath (root ++ "/" ++ split)])
    else if !download then
      (some (PyErr.runtimeError datasetNotFoundMsg), fs, [])
    else
      let fs1 := fs.afterDownload root filename
      (none, fs1.afterExtract filepath (root ++ "/" ++ split),
       [VerifyAction.download url root filename (if checksum then md5 else none),
        VerifyAction.extract filepath (root ++ "/" ++ split)])

/-- `NEONTreeSpecies._load_labels`: read `directory/label.shp` with
geopandas. -/
def load_labels (fs : FS) (directory : String) : List LabelRow :=
  fs.shpOf (directory ++ "/" ++ "label.shp")

/-- `NEONTreeSpecies._load`: for the training split, the glob directory is
`root/train` (`self.directories[self.split][0]`) and labels come from its
`label.shp`; for the test split the glob directory is `root` itself and
labels are `None`.  Returns (data RGB, data CHM, data HSI, labels,
metadata), with `metadata = labels`. -/
def load (fs : FS) (root split : String) :
    List String × List String × List String ×
      Option (List LabelRow) × Option (List LabelRow) :=
  let dirLabels :=
    if split = "train" then
      (root ++ "/" ++ (splitDirectories split).headD split,
       some (load_labels fs (root ++ "/" ++ (splitDirectories split).headD split)))
    else
      (root, none)
  let directory := dirLabels.1
  let labels := dirLabels.2
  let rgb := globTifs fs (directory ++ "/RGB")
  let chm := globTifs fs (directory ++ "/CHM")
  let hsi := globTifs fs (directory ++ "/HSI")
  (rgb, chm, hsi, labels, labels)

/-- `NEONTreeSpecies.__init__`: asserts the split, runs `_verify`
(propagating its errors and side effects), checks that geopandas imports,
then builds the instance state via `_load` on the post-verification
filesystem.  Returns the constructed state together with the resulting
filesystem, and the action trace of the `_verify` call. -/
def init (fs : FS) (root split : String)
    (transforms : Option (Sample → Sample)) (download checksum : Bool) :
    Except PyErr (DatasetState × FS) × List VerifyAction :=
  if split = "train" ∨ split = "test" then
    match verify fs root split download checksum with
    | (some e, _, acts) => (Except.error e, acts)
    | (none, fs1, acts) =>
      if fs1.gpdOk then
        let r := load fs1 root split
        (Except.ok
          ({ root := root, split := split, transforms := transforms,
             download := download, checksum := checksum,
             data_RGB := r.1, data_CHM := r.2.1, data_HSI := r.2.2.1,
             labels := r.2.2.2.1, metadataT := r.2.2.2.2 }, fs1), acts)
      else (Except.error PyErr.importError, acts)
  else (Except.error PyErr.assertionError, [])

/-- `sample["label"] = self.labels.label[index]` for the training split:
`self.labels` is `None` outside the training split (attribute access on
`None` raises), and the pandas label lookup can raise `KeyError`. -/
def labelAt (labels : Option (List LabelRow)) (index : Int) :
    Except PyErr (Option String) :=
  match labels with
  | none => Except.error PyErr.attributeError
  | some rows =>
    match pdSeriesGet rows index with
    | Except.error e => Except.error e
    | Except.ok r => Except.ok (some r.label)

/-- `NEONTreeSpecies.__getitem__`: index into `self.data["RGB"]`, read the
RGB raster (cast to uint8) and the HSI/CHM rasters at the paths obtained by
replacing every occurrence of `"RGB"` in the RGB path, take
`self.metadata.iloc[0]` as the metadata row, attach the label for the
training split, and apply the transforms if installed. -/
def getItem (fs : FS) (st : DatasetState) (index : Int) :
    Except PyErr Sample :=
  match pyListGet st.data_RGB index with
  | Except.error e => Except.error e
  | Except.ok path =>
    let image := toUint8 (fs.rasterOf path)
    let hsi := fs.rasterOf (pyStrReplace path "RGB" "HSI")
    let chm := fs.rasterOf (pyStrReplace path "RGB" "CHM")
    match ilocZero st.metadataT with
    | Except.error e => Except.error e
    | Except.ok md =>
      match (if st.split = "train" then labelAt st.labels index
             else Except.ok none) with
      | Except.error e => Except.error e
      | Except.ok lab =>
        let s : Sample :=
          { image := image, hsi := hsi, chm := chm, metadata := md,
            label := lab }
        Except.ok (match st.transforms with
                   | some t => t s
                   | none => s)

/-- `NEONTreeSpecies.__len__`: `len(self.data["RGB"])`. -/
def lengthOf (st : DatasetState) : Nat :=
  st.data_RGB.length

/-- The rendered figure, modelled at the level relevant to the adapter's
logic: the three panels' tensors (in `imshow` order RGB, HSI false color,
CHM), the titles, and the suptitle. -/
structure Figure where
  panels : List Tensor
  titles : List String
  suptitle : Option String
deriving DecidableEq, Repr

/-- `sample["hsi"][hsi_indices, :, :]`: select the given bands of a
3-dimensional tensor. -/
def selectBands (t : Tensor) (idx : List Int) : Tensor :=
  { t with shape := idx.length :: t.shape.drop 1 }

/-- The local `normalize` helper of `plot`: per-tensor min-max scaling,
shape-preserving, producing a float tensor. -/
def plotNormalize (t : Tensor) : Tensor :=
  { t with dtype := "float32" }

/-- `Tensor.permute((1, 2, 0))` on a 3-dimensional tensor. -/
def permute120 (t : Tensor) : Tensor :=
  match t.shape with
  | [a, b, c] => { t with shape := [b, c, a] }
  | s => { t with shape := s }

/-- `NEONTreeSpecies.plot`: assert that the HSI channel triple has exactly
three entries, then compose the three-panel figure. -/
def plot (sample : Sample) (show_titles : Bool) (suptitle : Option String)
    (hsi_indices : List Int) : Except PyErr Figure :=
  if hsi_indices.length = 3 then
    let hsiPanel := permute120 (plotNormalize (selectBands sample.hsi hsi_indices))
    let chmPanel := permute120 (plotNormalize sample.chm)
    let imgPanel := permute120 sample.image
    Except.ok
      { panels := [imgPanel, hsiPanel, chmPanel],
        titles :=
          if show_titles then
            ["RGB", "Hyperspectral False Color Image", "Canopy Height Model"]
          else [],
        suptitle := suptitle }
  else Except.error PyErr.assertionError

/-- A public operation on a constructed adapter. -/
inductive Op where
  | lengthOp
  | getItemOp (i : Int)
  | plotOp (sample : Sample) (show_titles : Bool) (suptitle : Option String)
      (hsi_indices : List Int)

/-- The result of one public operation. -/
inductive OpOut where
  | natOut (n : Nat)
  | sampleOut (s : Except PyErr Sample)
  | figOut (f : Except PyErr Figure)

/-- Run one public operation: each method is state-passing, returning its
result together with the adapter state it leaves behind.  The method
bodies (`__len__`, `__getitem__`, `plot`) contain no assignment to any
instance attribute, so the state passed out is the state passed in. -/
def runOp (fs : FS) (st : DatasetState) : Op → OpOut × DatasetState
  | Op.lengthOp => (OpOut.natOut (lengthOf st), st)
  | Op.getItemOp i => (OpOut.sampleOut (getItem fs st i), st)
  | Op.plotOp s t sup idx => (OpOut.figOut (plot s t sup idx), st)

/-- Run a sequence of public operations, threading the adapter state. -/
def runOps (fs : FS) (st : DatasetState) : List Op → DatasetState
  | [] => st
  | op :: rest => runOps fs (runOp fs st op).2 rest

/-- A fixed raster shape used by the concrete fixtures. -/
def tens0 : Tensor :=
  { shape := [3, 200, 200], dtype := "int16" }

/-- A root directory with nothing in it. -/
def fsEmptyRoot : FS :=
  { files := [], dirs := [], rasterOf := fun _ => tens0, shpOf := fun _ => [],
    archiveFilesOf := fun _ => [], archiveDirsOf := fun _ => [], gpdOk := true }

/-- A test-split dataset placed where `_load` actually globs for the test
split: modality directories directly under the root, with the `data/test`
marker directory that `_verify` checks present. -/
def fsTestGlobbed : FS :=
  { fsEmptyRoot with
    files := ["data/RGB/a.tif", "data/CHM/a.tif", "data/HSI/a.tif"],
    dirs := ["data/test"] }

/-- A test-split dataset laid out as documented (and as `_verify`'s
extraction produces): modality directories under `data/test`. -/
def fsTestLayout : FS :=
  { fsEmptyRoot with
    files := ["data/test/RGB/a.tif", "data/test/CHM/a.tif",
              "data/test/HSI/a.tif"],
    dirs := ["data/test"] }

/-- A training dataset with a single tile labelled `"QUAL"`. -/
def fsTrainOne : FS :=
  { fsEmptyRoot with
    files := ["data/train/RGB/a.tif", "data/train/CHM/a.tif",
              "data/train/HSI/a.tif"],
    dirs := ["data/train"],
    shpOf := fun _ => [{ label := "QUAL" }] }

/-- A training dataset with two tiles labelled `"QUAL"` and `"ACRU"`. -/
def fsTrainTwo : FS :=
  { fsEmptyRoot with
    files := ["data/train/RGB/a.tif", "data/train/RGB/b.tif",
              "data/train/CHM/a.tif", "data/train/CHM/b.tif",
              "data/train/HSI/a.tif", "data/train/HSI/b.tif"],
    dirs := ["data/train"],
    shpOf := fun _ => [{ label := "QUAL" }, { label := "ACRU" }] }

/-- The adapter state `__init__` builds on `fsTrainTwo` with
`root="data"`, `split="train"`, no transforms. -/
def stTrainTwo : DatasetState :=
  { root := "data", split := "train", transforms := none,
    download := false, checksum := false,
    data_RGB := ["data/train/RGB/a.tif", "data/train/RGB/b.tif"],
    data_CHM := ["data/train/CHM/a.tif", "data/train/CHM/b.tif"],
    data_HSI := ["data/train/HSI/a.tif", "data/train/HSI/b.tif"],
    labels := some [{ label := "QUAL" }, { label := "ACRU" }],
    metadataT := some [{ label := "QUAL" }, { label := "ACRU" }] }

/-- The sample `getItem` produces at index 0 of `stTrainTwo`. -/
def sampleA : Sample :=
  { image := { shape := [3, 200, 200], dtype := "uint8" },
    hsi := tens0, chm := tens0,
    metadata := { label := "QUAL" }, label := some "QUAL" }

/-- The sample `getItem` produces at index 1 of `stTrainTwo`. -/
def sampleB : Sample :=
  { sampleA with label := some "ACRU" }

/-- A filesystem whose raster reader records the path it was asked for,
with a root directory whose own name contains the substring `"RGB"`. -/
def fsRgbRoot : FS :=
  { fsEmptyRoot with
    files := ["dataRGB/train/RGB/a.tif", "dataRGB/train/CHM/a.tif",
              "dataRGB/train/HSI/a.tif"],
    dirs := ["dataRGB/train"],
    rasterOf := fun p => { shape := [], dtype := p },
    shpOf := fun _ => [{ label := "QUAL" }] }

/-- The adapter state built on `fsRgbRoot` with `root="dataRGB"`,
`split="train"`. -/
def stRgbRoot : DatasetState :=
  { root := "dataRGB", split := "train", transforms := none,
    download := false, checksum := false,
    data_RGB := ["dataRGB/train/RGB/a.tif"],
    data_CHM := ["dataRGB/train/CHM/a.tif"],
    data_HSI := ["dataRGB/train/HSI/a.tif"],
    labels := some [{ label := "QUAL" }],
    metadataT := some [{ label := "QUAL" }] }

/-- Inversion for a successful `getItem` with no transform installed: the
sample is exactly the record built from the indexed RGB path, the
substituted HSI/CHM paths, and the first metadata row. -/
theorem getItem_ok_inv (fs : FS) (st : DatasetState) (i : Int) (s : Sample)
    (ht : st.transforms = none) (h : getItem fs st i = Except.ok s) :
    ∃ path md lab,
      pyListGet st.data_RGB i = Except.ok path ∧
      ilocZero st.metadataT = Except.ok md ∧
      s = { image := toUint8 (fs.rasterOf path),
            hsi := fs.rasterOf (pyStrReplace path "RGB" "HSI"),
            chm := fs.rasterOf (pyStrReplace path "RGB" "CHM"),
            metadata := md, label := lab } := by
  unfold getItem at h
  split at h
  · cases h
  · rename_i path hp
    split at h
    · cases h
    · rename_i md hm
      split at h
      · cases h
      · rename_i lab hl
        rw [ht] at h
        cases h
        exact ⟨path, md, lab, hp, hm, rfl⟩

/-- Auxiliary for C8: no public operation changes the adapter state. -/
theorem runOps_fix (fs : FS) :
    ∀ (ops : List Op) (st : DatasetState), runOps fs st ops = st
  | [], _ => rfl
  | op :: rest, st => by
    have h2 : (runOp fs st op).2 = st := by cases op <;> rfl
    rw [runOps, h2]
    exact runOps_fix fs rest st

/-- C1: the claim says `GetItem` never fails on an in-range index for
either split.  On a test-split dataset placed exactly where the code
looks for it (so `Length() = 1`), `GetItem(0)` nevertheless fails with an
attribute error: `_load` returns `labels = None` for the test split and
`__init__` rebinds `self.metadata` to it, so `self.metadata.iloc[0]`
dereferences `None`. -/
theorem c1_getitem_test_split_crashes :
    (init fsTestGlobbed "data" "test" none false false).1.toOption.map
        (fun p => lengthOf p.1) = some 1 ∧
    (init fsTestGlobbed "data" "test" none false false).1.toOption.map
        (fun p => getItem fsTestGlobbed p.1 0) =
      some (Except.error PyErr.attributeError) :=
  ⟨rfl, rfl⟩

/-- C2: the claim says image files are enumerated under
`{root}/{split}/RGB` for both splits.  On a test-split dataset laid out
exactly that way (`data/test/RGB` holds one tif, and `_verify`'s
existence check passes), `Length()` is 0, because `_load` uses
`directory = root` for the test split and globs `data/RGB` instead of
`data/test/RGB`. -/
theorem c2_test_split_length_zero :
    (globTifs fsTestLayout "data/test/RGB").length = 1 ∧
    (init fsTestLayout "data" "test" none false false).1.toOption.map
        (fun p => lengthOf p.1) = some 0 :=
  ⟨by decide, rfl⟩

/-- C3: the claim says that with `"QUAL"` in the label table,
`GetItem(0)["label"]` resolves to the integer class index 21.  The class
table does map `"QUAL"` to 21, but `__getitem__` attaches the raw value
`self.labels.label[index]` without applying `class2idx`, so the sample's
label is the string `"QUAL"`, not 21. -/
theorem c3_label_raw_code_not_index :
    class2idx "QUAL" = some 21 ∧
    (init fsTrainOne "data" "train" none false false).1.toOption.map
        (fun p => (getItem fsTrainOne p.1 0).toOption.map Sample.label) =
      some (some (some "QUAL")) :=
  ⟨by decide, rfl⟩

/-- C4: if the split's expected subdirectory already exists under root,
`_verify` returns immediately: no download, no extraction, the
filesystem unchanged, and an empty action trace — so a second call on an
already-present dataset performs no network activity and leaves state
identical. -/
theorem c4_verify_idempotent_when_present
    (fs : FS) (root split : String) (download checksum : Bool)
    (hsplit : split = "train" ∨ split = "test")
    (h : fs.existsPath (root ++ "/" ++ split) = true) :
    verify fs root split download checksum = (none, fs, []) := by
  simp [verify, splitDirectories, h]

/-- Witness for C4 at a concrete already-present training dataset, with
`download` and `checksum` both enabled. -/
theorem c4_witness :
    verify fsTrainOne "data" "train" true true = (none, fsTrainOne, []) :=
  c4_verify_idempotent_when_present fsTrainOne "data" "train" true true
    (Or.inl rfl) (by decide)

/-- C5: with the split directory absent, no local archive, and
`download=False`, construction fails with the "dataset not found"
`RuntimeError` and the action trace is empty: no download is attempted,
the error is raised strictly before any download call. -/
theorem c5_missing_dataset_error_no_download
    (fs : FS) (root split : String)
    (transforms : Option (Sample → Sample)) (checksum : Bool)
    (hsplit : split = "train" ∨ split = "test")
    (hdir : fs.existsPath (root ++ "/" ++ split) = false)
    (harch : fs.existsPath (root ++ "/" ++ splitFilename split) = false) :
    init fs root split transforms false checksum =
      (Except.error (PyErr.runtimeError datasetNotFoundMsg), []) := by
  simp [init, hsplit, verify, splitDirectories, hdir, harch]

/-- Witness for C5 at a concrete empty root. -/
theorem c5_witness :
    init fsEmptyRoot "data" "train" none false false =
      (Except.error (PyErr.runtimeError datasetNotFoundMsg), []) :=
  c5_missing_dataset_error_no_download fsEmptyRoot "data" "train" none false
    (Or.inl rfl) (by decide) (by decide)

/-- C6: for every split argument other than `"train"` and `"test"`,
construction fails with the assertion (configuration) error, regardless
of the other arguments, and nothing else happens. -/
theorem c6_invalid_split_assertion
    (fs : FS) (root split : String)
    (transforms : Option (Sample → Sample)) (download checksum : Bool)
    (h1 : split ≠ "train") (h2 : split ≠ "test") :
    init fs root split transforms download checksum =
      (Except.error PyErr.assertionError, []) := by
  simp [init, h1, h2]

/-- Witness for C6 at the concrete invalid split `"validation"`. -/
theorem c6_witness :
    init fsEmptyRoot "data" "validation" none true true =
      (Except.error PyErr.assertionError, []) :=
  c6_invalid_split_assertion fsEmptyRoot "data" "validation" none true true
    (by decide) (by decide)

/-- C7: `plot` with an HSI channel list whose length is not 3 fails with
the assertion (precondition) error before composing any figure; with a
length-3 list the precondition passes and a figure is returned. -/
theorem c7_plot_channel_triplet_assertion
    (sample : Sample) (show_titles : Bool) (suptitle : Option String)
    (hsi_indices : List Int) :
    (hsi_indices.length ≠ 3 →
      plot sample show_titles suptitle hsi_indices =
        Except.error PyErr.assertionError) ∧
    (hsi_indices.length = 3 →
      ∃ f, plot sample show_titles suptitle hsi_indices = Except.ok f) := by
  constructor
  · intro h
    simp [plot, h]
  · intro h
    exact ⟨_, by unfold plot; rw [if_pos h]⟩

/-- Witness for C7 at a concrete sample, with a length-2 list and with
the default length-3 triple `(55, 111, 170)`. -/
theorem c7_witness :
    plot sampleA true none [55, 111] = Except.error PyErr.assertionError ∧
    ∃ f, plot sampleA true none [55, 111, 170] = Except.ok f :=
  ⟨(c7_plot_channel_triplet_assertion sampleA true none [55, 111]).1
      (by decide),
   (c7_plot_channel_triplet_assertion sampleA true none [55, 111, 170]).2
      (by decide)⟩

/-- C8: after construction, no sequence of `Length`, `GetItem` (no
transform installed) and `Plot` calls mutates the adapter: the three
per-modality path lists and the label table (and the metadata table)
after the sequence are exactly those built at construction. -/
theorem c8_operations_preserve_state
    (fs : FS) (st : DatasetState) (ops : List Op)
    (ht : st.transforms = none) :
    (runOps fs st ops).data_RGB = st.data_RGB ∧
    (runOps fs st ops).data_CHM = st.data_CHM ∧
    (runOps fs st ops).data_HSI = st.data_HSI ∧
    (runOps fs st ops).labels = st.labels ∧
    (runOps fs st ops).metadataT = st.metadataT := by
  rw [runOps_fix]
  exact ⟨rfl, rfl, rfl, rfl, rfl⟩

/-- Witness for C8: a concrete mixed call sequence (including an
out-of-range access and a malformed plot call) on the two-tile training
state. -/
theorem c8_witness :
    (runOps fsTrainTwo stTrainTwo
        [Op.lengthOp, Op.getItemOp 0, Op.plotOp sampleA true none [55, 111],
         Op.getItemOp 5, Op.lengthOp]).data_RGB = stTrainTwo.data_RGB ∧
    (runOps fsTrainTwo stTrainTwo
        [Op.lengthOp, Op.getItemOp 0, Op.plotOp sampleA true none [55, 111],
         Op.getItemOp 5, Op.lengthOp]).data_CHM = stTrainTwo.data_CHM ∧
    (runOps fsTrainTwo stTrainTwo
        [Op.lengthOp, Op.getItemOp 0, Op.plotOp sampleA true none [55, 111],
         Op.getItemOp 5, Op.lengthOp]).data_HSI = stTrainTwo.data_HSI ∧
    (runOps fsTrainTwo stTrainTwo
        [Op.lengthOp, Op.getItemOp 0, Op.plotOp sampleA true none [55, 111],
         Op.getItemOp 5, Op.lengthOp]).labels = stTrainTwo.labels ∧
    (runOps fsTrainTwo stTrainTwo
        [Op.lengthOp, Op.getItemOp 0, Op.plotOp sampleA true none [55, 111],
         Op.getItemOp 5, Op.lengthOp]).metadataT = stTrainTwo.metadataT :=
  c8_operations_preserve_state fsTrainTwo stTrainTwo
    [Op.lengthOp, Op.getItemOp 0, Op.plotOp sampleA true none [55, 111],
     Op.getItemOp 5, Op.lengthOp] rfl

/-- C9: for the training split (no transform installed), the metadata
record of every successfully returned sample is the first row of the
label table — two successful accesses at different indices carry the same
metadata, even though their labels may differ. -/
theorem c9_metadata_always_first_row
    (fs : FS) (st : DatasetState) (i j : Int) (s1 s2 : Sample)
    (ht : st.transforms = none) (hsplit : st.split = "train")
    (h1 : getItem fs st i = Except.ok s1)
    (h2 : getItem fs st j = Except.ok s2) :
    s1.metadata = s2.metadata ∧
      ∀ r rest, st.metadataT = some (r :: rest) → s1.metadata = r := by
  obtain ⟨p1, m1, l1, _, hm1, hs1⟩ := getItem_ok_inv fs st i s1 ht h1
  obtain ⟨p2, m2, l2, _, hm2, hs2⟩ := getItem_ok_inv fs st j s2 ht h2
  subst hs1
  subst hs2
  constructor
  · rw [hm1] at hm2
    cases hm2
    rfl
  · intro r rest hr
    rw [hr] at hm1
    cases hm1
    rfl

/-- Witness for C9 at indices 0 and 1 of the concrete two-tile training
state: both samples carry the `"QUAL"` metadata row while their labels
differ. -/
theorem c9_witness :
    sampleA.metadata = sampleB.metadata ∧
      ∀ r rest, stTrainTwo.metadataT = some (r :: rest) →
        sampleA.metadata = r :=
  c9_metadata_always_first_row fsTrainTwo stTrainTwo 0 1 sampleA sampleB
    rfl rfl rfl rfl

/-- C10: the HSI and CHM paths read by `getItem` are obtained from the
RGB path by replacing every occurrence of the substring `"RGB"`; in
particular, for a root whose own path contains `"RGB"` the substitution
also rewrites the root component, not just the modality directory. -/
theorem c10_hsi_chm_paths_replace_all :
    (∀ (fs : FS) (st : DatasetState) (i : Int) (path : String) (s : Sample),
      st.transforms = none →
      pyListGet st.data_RGB i = Except.ok path →
      getItem fs st i = Except.ok s →
      s.hsi = fs.rasterOf (pyStrReplace path "RGB" "HSI") ∧
      s.chm = fs.rasterOf (pyStrReplace path "RGB" "CHM")) ∧
    pyStrReplace "dataRGB/train/RGB/a.tif" "RGB" "HSI" =
      "dataHSI/train/HSI/a.tif" ∧
    pyStrReplace "dataRGB/train/RGB/a.tif" "RGB" "CHM" =
      "dataCHM/train/CHM/a.tif" := by
  refine ⟨?_, by decide, by decide⟩
  intro fs st i path s ht hp h
  obtain ⟨p, md, lab, hp2, hm, hs⟩ := getItem_ok_inv fs st i s ht h
  rw [hp] at hp2
  cases hp2
  subst hs
  exact ⟨rfl, rfl⟩

/-- Witness for C10 on the concrete state rooted at `"dataRGB"`: the
raster reader records the path it was asked for, and the sample returned
at index 0 read its HSI raster from `"dataHSI/train/HSI/a.tif"`. -/
theorem c10_witness :
    ({ shape := [], dtype := "dataHSI/train/HSI/a.tif" } : Tensor) =
        fsRgbRoot.rasterOf
          (pyStrReplace "dataRGB/train/RGB/a.tif" "RGB" "HSI") ∧
    ({ shape := [], dtype := "dataCHM/train/CHM/a.tif" } : Tensor) =
        fsRgbRoot.rasterOf
          (pyStrReplace "dataRGB/train/RGB/a.tif" "RGB" "CHM") :=
  (c10_hsi_chm_paths_replace_all.1 fsRgbRoot stRgbRoot 0
    "dataRGB/train/RGB/a.tif"
    { image := toUint8 (fsRgbRoot.rasterOf "dataRGB/train/RGB/a.tif"),
      hsi := { shape := [], dtype := "dataHSI/train/HSI/a.tif" },
      chm := { shape := [], dtype := "dataCHM/train/CHM/a.tif" },
      metadata := { label := "QUAL" }, label := some "QUAL" }
    rfl rfl rfl)
